import Mathlib

/-!
Verification of the RunAll_Product seckill ingestion pipeline.

Shallow embedding of the Go sources:
* `internal/data/order_id_generator.go` (orderIDGenerator.Generate)
* the instance-ID generator and `RandomBit3`
* `service.hashStreamID` and `SeckillOrderService.HandleSeckillOrder`
* `biz.OrderUsecase.CreateOrder`, `biz.InstanceUsecase.CreateInstance`
* `data.orderRepo.Create` / `UpdateStatus` (uniqueness over (product_id, req_id))
* `data.mqPublisher.PublishInstanceCreated`, `noopMQPublisher`, `NewMQPublisher`
* `server.SeckillStreamServer.consumeLoop` / `reclaimLoop` (per-message step)

Go `int64` values are modelled as their 64-bit two's-complement bit pattern
(a `Nat` below `2^64`) where bit-level operations matter (the ID generators,
`hashStreamID`), and as unbounded `Int` in the orchestration layer where no
overflow can occur.  A pattern is "negative as int64" iff it is `≥ 2^63`.
Wall-clock reads (`time.Now()`) are passed in as explicit parameters; logging
is I/O-free and omitted.
-/

namespace RunAllProduct

/-- The 64-bit two's-complement bit pattern of an integer (Go `int64` layout). -/
def i64ofInt (z : ℤ) : ℕ := (z % 18446744073709551616).toNat

/-- Wrap an integer into the signed 64-bit range, as Go arithmetic does. -/
def toInt64 (z : ℤ) : ℤ :=
  (z + 9223372036854775808) % 18446744073709551616 - 9223372036854775808

/-- `EpochMsStart` from the instance-ID generator file: the fixed epoch anchor,
milliseconds for UTC 2026-01-18 00:00:00. -/
def EpochMsStart : ℤ := 1768665600000

/-- `orderIDGenerator.Generate` (internal/data/order_id_generator.go).
Layout `[0 (1 bit)][timestamp (46 bits)][uid_hash (15 bits)]`.
The external xxhash function is passed in abstractly as `xxh`; the code
masks its result to 15 bits, so any `Nat`-valued hash is faithful. -/
def orderIDGenerate (xxh : String → ℕ) (nowMs : ℤ) (userID : String) : ℕ :=
  let relativeTime := i64ofInt (nowMs - EpochMsStart) &&& 0x3FFFFFFFFFFF
  let uidHash := xxh userID &&& 0x7FFF
  ((relativeTime <<< 15) % 18446744073709551616) ||| uidHash

/-- `RandomBit3` from the instance-ID generator file.  The Go function
allocates a *fresh local* `atomic.Int64` (zero-valued) on every call, adds one
and subtracts one, masking to 3 bits — the local `p` below is that fresh
zero-valued counter. -/
def RandomBit3 : ℕ :=
  let p : ℕ := 0
  let n := (p + 1) - 1
  n &&& 7

/-- `instanceIDGenerator.Generate`: `uid | timeNow | random` where
`timeNow = (nowMs - EpochMsStart) << 3` (no mask!) and
`uid = (xxhash(uuid) & 0x7FFF) << 48`. -/
def instanceIDGenerate (xxh : String → ℕ) (nowMs : ℤ) (uuid : String) : ℕ :=
  let timeNow := (i64ofInt (nowMs - EpochMsStart) <<< 3) % 18446744073709551616
  let uid := ((xxh uuid &&& 0x7FFF) <<< 48) % 18446744073709551616
  let random := RandomBit3
  (uid ||| timeNow) ||| random

/-- `service.hashStreamID`: `hash = hash*31 + streamID[i]` over the bytes of
the ID token with Go `int64` wrap-around, then absolute value (also wrapping).
Stream IDs are ASCII (`"<ms>-<seq>"`), so iterating code points equals
iterating bytes. -/
def hashStreamID (streamID : String) : ℤ :=
  let h := streamID.data.foldl (fun h c => toInt64 (h * 31 + (c.toNat : ℤ))) 0
  if h < 0 then toInt64 (-h) else h

/-- `biz.ProductSpec` (values only; `time.Time` fields as integers, `[]byte`
as a byte list). -/
structure ProductSpec where
  id : ℤ
  cpu : ℤ
  memory : ℤ
  gpu : ℤ
  image : String
  configJSON : List ℕ
  createdAt : ℤ
deriving DecidableEq

/-- `biz.Product`. -/
structure Product where
  id : ℤ
  name : String
  description : String
  status : String
  price : ℤ
  specID : ℤ
  spec : Option ProductSpec
  createdAt : ℤ
  updatedAt : ℤ
deriving DecidableEq

/-- `biz.Order` as persisted by `data.orderRepo` (`orders` table row). -/
structure Order where
  id : ℤ
  userID : String
  productID : ℤ
  reqID : ℤ
  amount : ℤ
  instanceID : ℤ
  status : String
  createdAt : ℤ
  paidAt : Option ℤ
  completedAt : Option ℤ
deriving DecidableEq

/-- `biz.InstanceSpec`: the payload handed to `MQPublisher.PublishInstanceCreated`. -/
structure InstanceSpec where
  instanceID : ℤ
  userID : String
  name : String
  cpu : ℤ
  memory : ℤ
  gpu : ℤ
  image : String
  configJSON : List ℕ
deriving DecidableEq

/-- `mq.Event` as built by `mqPublisher.PublishInstanceCreated`: event type,
instance id, timestamp, user id, name, and an `mq.InstanceSpec` with cpus,
memory_mb, gpu and image.  (There is no config field in the wire event.) -/
structure MqEvent where
  eventType : String
  instanceId : ℤ
  timestamp : ℤ
  userId : String
  name : String
  cpus : ℤ
  memoryMb : ℤ
  gpu : ℤ
  image : String
deriving DecidableEq

/-- The Go `error` values that can flow through the commit path. -/
inductive GoError where
  /-- gorm "record not found" from a failed product lookup. -/
  | recordNotFound
  /-- `biz.ErrProductDisabled`. -/
  | productDisabled
  /-- `errors.New("product spec not found")`. -/
  | specNotFound
  /-- Postgres duplicate-key error (SQLSTATE 23505) naming the violated
  constraint. -/
  | uniqueViolation (constraint : String)
  /-- AMQP transport failure from `channel.PublishWithContext`. -/
  | publishSendFailed
deriving DecidableEq

/-- `productRepo.GetByID` against an in-memory catalog: first product with the
requested id, or the gorm record-not-found error. -/
def getProductByID (catalog : List Product) (productID : ℤ) : Option Product :=
  catalog.find? (fun p => p.id == productID)

/-- `orderRepo.Create`: a single INSERT into `orders`.  The DDL enforces the
primary key on `order_id` and the unique index `uq_orders_product_req` over
`(product_id, req_id)`; a conflicting insert fails with a duplicate-key error
naming the violated constraint, leaving the table unchanged. -/
def repoCreate (db : List Order) (o : Order) : Except GoError (List Order) :=
  if db.any (fun r => r.id == o.id) then
    .error (.uniqueViolation "orders_pkey")
  else if db.any (fun r => r.productID == o.productID && r.reqID == o.reqID) then
    .error (.uniqueViolation "uq_orders_product_req")
  else
    .ok (db ++ [o])

/-- `orderRepo.UpdateStatus` (internal/data/order.go): set `status` on the row
with the given order id, additionally setting `paid_at` when the new status is
PAID and `completed_at` when it is COMPLETED.  No precondition on the current
status is checked. -/
def UpdateStatus (db : List Order) (orderID : ℤ) (status : String) (now : ℤ) :
    List Order :=
  db.map fun r =>
    if r.id == orderID then
      { r with
        status := status
        paidAt := if status == "PAID" then some now else r.paidAt
        completedAt := if status == "COMPLETED" then some now else r.completedAt }
    else r

/-- The wire event `mqPublisher.PublishInstanceCreated` builds from an
`InstanceSpec` before `proto.Marshal`: note that `spec.ConfigJSON` is not
copied into the event. -/
def buildEvent (now : ℤ) (s : InstanceSpec) : MqEvent :=
  { eventType := "INSTANCE_CREATED"
    instanceId := s.instanceID
    timestamp := now
    userId := s.userID
    name := s.name
    cpus := s.cpu
    memoryMb := s.memory
    gpu := s.gpu
    image := s.image }

/-- The two publisher implementations behind `biz.MQPublisher`. -/
inductive Publisher where
  | real
  | noop
deriving DecidableEq

/-- `NewMQPublisher`: the healthy `mqPublisher` is returned only when the
config is present and dialing, channel opening, exchange declaration, queue
declaration and queue binding all succeed; any failure yields the degraded
`noopMQPublisher`. -/
def NewMQPublisher (cfgPresent dialOk chanOk exchangeOk queueOk bindOk : Bool) :
    Publisher :=
  if cfgPresent && dialOk && chanOk && exchangeOk && queueOk && bindOk then
    .real
  else
    .noop

/-- `PublishInstanceCreated` on either implementation.  `sendOk` is whether the
AMQP transport accepts the publish; the result is the returned error together
with the list of events delivered to the broker.  `noopMQPublisher` logs a
warning, delivers nothing and returns nil. -/
def publish (pub : Publisher) (sendOk : Bool) (now : ℤ) (s : InstanceSpec) :
    Option GoError × List MqEvent :=
  match pub with
  | .real => if sendOk then (none, [buildEvent now s]) else (some .publishSendFailed, [])
  | .noop => (none, [])

/-- The values the (infallible) ID generators return on the up to three
`Generate` calls `OrderUsecase.CreateOrder` makes: the req-id mint, the
order-id mint and the instance-id mint, in call order. -/
structure Mints where
  reqMint : ℤ
  orderMint : ℤ
  instMint : ℤ
deriving DecidableEq

/-- The result of `OrderUsecase.CreateOrder`: the returned
`(orderID, instanceID, err)` triple plus the resulting store contents and the
events delivered to the broker. -/
structure CommitOut where
  orderID : ℤ
  instanceID : ℤ
  err : Option GoError
  db : List Order
  events : List MqEvent
deriving DecidableEq

/-- `OrderUsecase.CreateOrder` (internal/biz/order.go:186):
1. a zero `reqID` is replaced by a fresh generator value;
2. the product is resolved; a non-ENABLED status fails with
   `ErrProductDisabled`; a missing spec fails;
3./4. order and instance ids are minted;
5. the order row is inserted with status PAID, `paid_at = created_at = now`;
   an insert error is returned as-is (no read-back);
6. the instance-created event is published; a publish error fails the call,
   leaving the inserted row in place. -/
def CreateOrder (catalog : List Product) (pub : Publisher) (sendOk : Bool)
    (m : Mints) (now : ℤ) (db : List Order)
    (productID : ℤ) (userID : String) (reqID : ℤ) : CommitOut :=
  let reqID := if reqID = 0 then m.reqMint else reqID
  match getProductByID catalog productID with
  | none => ⟨0, 0, some .recordNotFound, db, []⟩
  | some product =>
    if product.status ≠ "ENABLED" then ⟨0, 0, some .productDisabled, db, []⟩
    else
      match product.spec with
      | none => ⟨0, 0, some .specNotFound, db, []⟩
      | some sp =>
        let order : Order :=
          ⟨m.orderMint, userID, productID, reqID, product.price, m.instMint,
            "PAID", now, some now, none⟩
        match repoCreate db order with
        | .error e => ⟨0, 0, some e, db, []⟩
        | .ok db1 =>
          let spec : InstanceSpec :=
            ⟨m.instMint, userID, product.name, sp.cpu, sp.memory, sp.gpu,
              sp.image, sp.configJSON⟩
          match publish pub sendOk now spec with
          | (some e, _) => ⟨0, 0, some e, db1, []⟩
          | (none, evs) => ⟨m.orderMint, m.instMint, none, db1, evs⟩

/-- `InstanceUsecase.CreateInstance` (internal/biz/product.go:350): same shape
as `CreateOrder` but it checks only that the spec is present — it performs
**no** product-status check — and returns only an error. -/
def CreateInstance (catalog : List Product) (pub : Publisher) (sendOk : Bool)
    (m : Mints) (now : ℤ) (db : List Order)
    (productID : ℤ) (userID : String) (reqID : ℤ) :
    Option GoError × List Order × List MqEvent :=
  let reqID := if reqID = 0 then m.reqMint else reqID
  match getProductByID catalog productID with
  | none => (some .recordNotFound, db, [])
  | some product =>
    match product.spec with
    | none => (some .specNotFound, db, [])
    | some sp =>
      let order : Order :=
        ⟨m.orderMint, userID, productID, reqID, product.price, m.instMint,
          "PAID", now, some now, none⟩
      match repoCreate db order with
      | .error e => (some e, db, [])
      | .ok db1 =>
        let spec : InstanceSpec :=
          ⟨m.instMint, userID, product.name, sp.cpu, sp.memory, sp.gpu,
            sp.image, sp.configJSON⟩
        match publish pub sendOk now spec with
        | (some e, _) => (some e, db1, [])
        | (none, evs) => (none, db1, evs)

/-- `service.isUniqueViolationError`: the Go code substring-matches the error
text against "23505" / "duplicate key" / "uq_orders_product_req"; every
duplicate-key error the store produces contains "duplicate key". -/
def isUniqueViolationError : GoError → Bool
  | .uniqueViolation _ => true
  | _ => false

/-- `SeckillOrderService.HandleSeckillOrder`: derive `reqID` from the stream
entry token via `hashStreamID`, run `CreateOrder`, and swallow a uniqueness
violation (returning nil so the message gets acknowledged).  Result: the
returned error, the resulting store and the delivered events. -/
def HandleSeckillOrder (catalog : List Product) (pub : Publisher)
    (sendOk : Bool) (m : Mints) (now : ℤ) (db : List Order) (productID : ℤ)
    (streamID uid : String) : Option GoError × List Order × List MqEvent :=
  let reqID := hashStreamID streamID
  let out := CreateOrder catalog pub sendOk m now db productID uid reqID
  match out.err with
  | some e =>
    if isUniqueViolationError e then (none, out.db, out.events)
    else (some e, out.db, out.events)
  | none => (none, out.db, out.events)

/-- One Redis stream entry as the consume loop sees it: the log-assigned ID
token and the `uid` field of the value map (`none` when the field is absent —
`fmt.Sprint` of a missing map entry yields the string `"<nil>"`). -/
structure StreamMsg where
  id : String
  uid : Option String
deriving DecidableEq

/-- `fmt.Sprint(msg.Values["uid"])`. -/
def extractUid : Option String → String
  | none => "<nil>"
  | some s => s

/-- Outcome of processing one stream entry: whether the handler was invoked,
whether `XAck` was issued, and the error/store/event effects. -/
structure MsgOutcome where
  handled : Bool
  acked : Bool
  err : Option GoError
  db : List Order
  events : List MqEvent
deriving DecidableEq

/-- One iteration of the inner message loop of
`SeckillStreamServer.consumeLoop` (internal/server/redis.go:245-263): a
missing or empty `uid` is logged and skipped with `continue` — the handler is
not invoked and no `XAck` is issued; a handler error also skips the `XAck`;
only a handler success is acknowledged. -/
def consumeOne (catalog : List Product) (pub : Publisher) (sendOk : Bool)
    (m : Mints) (now : ℤ) (productID : ℤ) (db : List Order)
    (msg : StreamMsg) : MsgOutcome :=
  let uid := extractUid msg.uid
  if uid = "" ∨ uid = "<nil>" then ⟨false, false, none, db, []⟩
  else
    match HandleSeckillOrder catalog pub sendOk m now db productID msg.id uid with
    | (some e, db1, evs) => ⟨true, false, some e, db1, evs⟩
    | (none, db1, evs) => ⟨true, true, none, db1, evs⟩

/-- One message step of `SeckillStreamServer.reclaimLoop`
(internal/server/redis.go:301-313): identical skip/ack structure to the
consume loop, applied to an entry reclaimed via `XAutoClaim`. -/
def reclaimOne (catalog : List Product) (pub : Publisher) (sendOk : Bool)
    (m : Mints) (now : ℤ) (productID : ℤ) (db : List Order)
    (msg : StreamMsg) : MsgOutcome :=
  let uid := extractUid msg.uid
  if uid = "" ∨ uid = "<nil>" then ⟨false, false, none, db, []⟩
  else
    match HandleSeckillOrder catalog pub sendOk m now db productID msg.id uid with
    | (some e, db1, evs) => ⟨true, false, some e, db1, evs⟩
    | (none, db1, evs) => ⟨true, true, none, db1, evs⟩

/-! ## Shared test fixtures and helper lemmas -/

/-- An enabled catalog entry with a populated spec (cpu 2, mem 4096). -/
def specA : ProductSpec := ⟨1, 2, 4096, 0, "ubuntu:22.04", [], 0⟩

/-- Product 1001, ENABLED, price 9900. -/
def prodA : Product := ⟨1001, "basic", "", "ENABLED", 9900, 1, some specA, 0, 0⟩

/-- Product 2002, DISABLED, with a populated spec. -/
def prodB : Product := ⟨2002, "gpu", "", "DISABLED", 5000, 1, some specA, 0, 0⟩

/-- If `a` and `b` are both multiples of 8, the low three bits of `a ||| b`
are zero. -/
lemma or_and_seven (a b : ℕ) (ha : a % 8 = 0) (hb : b % 8 = 0) :
    (a ||| b) &&& 7 = 0 := by
  have e : ∀ x : ℕ, 7 &&& x = x % 8 := fun x => by
    rw [Nat.and_comm]
    exact Nat.and_pow_two_sub_one_eq_mod x 3
  rw [Nat.and_comm, Nat.and_or_distrib_left, e a, e b, ha, hb]
  rfl

/-- A shifted value reduced mod `2^64` keeps its low three bits zero when the
shift is at least 3. -/
lemma shift_mod_eight (y k : ℕ) (h : 8 ∣ 2 ^ k) :
    ((y <<< k) % 18446744073709551616) % 8 = 0 := by
  rw [Nat.mod_mod_of_dvd _ (by norm_num : (8 : ℕ) ∣ 18446744073709551616),
    Nat.shiftLeft_eq]
  exact Nat.mod_eq_zero_of_dvd (Dvd.dvd.mul_left h _)

/-! ## C3 -/

/-- C3 (code bug): the low-bits counter of a minted instance identifier is
claimed to rotate, the counter of call `i` being `i mod 8`.  In the code,
`RandomBit3` allocates a *fresh local* `atomic.Int64` on every call, so every
call returns 0 and the counter component of every minted identifier is 0 —
successive calls in the same millisecond with the same key return identical
identifiers, contradicting the function's own rotating-counter intent. -/
theorem randomBit3_counter_constant_zero :
    RandomBit3 = 0 ∧
      ∀ (xxh : String → ℕ) (nowMs : ℤ) (uuid : String),
        instanceIDGenerate xxh nowMs uuid &&& 7 = 0 := by
  have hr : RandomBit3 = 0 := by decide
  refine ⟨hr, fun xxh nowMs uuid => ?_⟩
  show ((_ ||| _) ||| RandomBit3) &&& 7 = 0
  rw [hr, Nat.or_zero]
  exact or_and_seven _ _
    (shift_mod_eight _ 48 (by norm_num))
    (shift_mod_eight _ 3 (by norm_num))

/-! ## C4 -/

/-- C4 (counterexample): one millisecond before the epoch anchor the
instance-ID generator's unmasked time component sign-extends, and the minted
value is negative as an `int64` (its top bit is 1), refuting "the top bit of
the assembled value is always 0" for every current time. -/
theorem instance_id_negative_counterexample :
    2 ^ 63 ≤ instanceIDGenerate (fun _ => 0) (EpochMsStart - 1) "u" := by
  decide

/-- C4 (amended): the order-ID generator masks its time component to 46 bits
and always returns a value with top bit 0, for every key and every time; the
instance-ID generator does not mask its time component, so its result has top
bit 0 only provided the current time is at or after the epoch anchor (and
less than `2^60` ms past it). -/
theorem id_generators_nonneg_amended (xxh : String → ℕ) (nowMs : ℤ)
    (key : String) (h0 : 0 ≤ nowMs - EpochMsStart)
    (h1 : nowMs - EpochMsStart < 2 ^ 60) :
    (∀ t : ℤ, orderIDGenerate xxh t key < 2 ^ 63) ∧
      instanceIDGenerate xxh nowMs key < 2 ^ 63 := by
  constructor
  · intro t
    unfold orderIDGenerate
    apply Nat.or_lt_two_pow
    · apply Nat.lt_of_le_of_lt (Nat.mod_le _ _)
      rw [Nat.shiftLeft_eq]
      have hm : i64ofInt (t - EpochMsStart) &&& 0x3FFFFFFFFFFF < 2 ^ 46 :=
        Nat.and_lt_two_pow _ (by norm_num)
      exact lt_of_lt_of_le (mul_lt_mul_of_pos_right hm (by positivity))
        (by norm_num)
    · exact Nat.and_lt_two_pow _ (by norm_num)
  · have hr : RandomBit3 = 0 := by decide
    show ((_ ||| _) ||| RandomBit3) < 2 ^ 63
    rw [hr, Nat.or_zero]
    apply Nat.or_lt_two_pow
    · apply Nat.lt_of_le_of_lt (Nat.mod_le _ _)
      rw [Nat.shiftLeft_eq]
      have hm : xxh key &&& 0x7FFF < 2 ^ 15 := Nat.and_lt_two_pow _ (by norm_num)
      exact lt_of_lt_of_le (mul_lt_mul_of_pos_right hm (by positivity))
        (by norm_num)
    · apply Nat.lt_of_le_of_lt (Nat.mod_le _ _)
      rw [Nat.shiftLeft_eq]
      have hd : i64ofInt (nowMs - EpochMsStart) < 2 ^ 60 := by
        unfold i64ofInt
        rw [Int.emod_eq_of_lt h0 (by omega)]
        omega
      exact lt_of_lt_of_le (mul_lt_mul_of_pos_right hd (by positivity))
        (by norm_num)

/-- Witness for the amended C4 theorem: evaluated at the epoch anchor itself
(and, for the order generator, at time 0, which lies *before* the anchor). -/
theorem id_generators_nonneg_amended_witness :
    orderIDGenerate (fun _ => 0) 0 "u" < 2 ^ 63 ∧
      instanceIDGenerate (fun _ => 0) EpochMsStart "u" < 2 ^ 63 :=
  ⟨(id_generators_nonneg_amended (fun _ => 0) EpochMsStart "u" (by decide)
      (by decide)).1 0,
    (id_generators_nonneg_amended (fun _ => 0) EpochMsStart "u" (by decide)
      (by decide)).2⟩

/-! ## C8 -/

/-- C8 (counterexample): two instance specs that differ only in their
free-form extension payload (`ConfigJSON`) produce the *same* wire event —
the published event is not a function of the extension payload, because
`PublishInstanceCreated` never copies `ConfigJSON` into the event. -/
theorem event_drops_configJSON_counterexample :
    buildEvent 0 ⟨1, "u", "n", 2, 4096, 0, "img", []⟩ =
        buildEvent 0 ⟨1, "u", "n", 2, 4096, 0, "img", [1]⟩ ∧
      (⟨1, "u", "n", 2, 4096, 0, "img", []⟩ : InstanceSpec) ≠
        ⟨1, "u", "n", 2, 4096, 0, "img", [1]⟩ := by
  decide

/-- C8 (amended): the published event carries the resource id (instance id),
user id, name, the resource shape (cpu/memory/gpu counts and image) and the
emission timestamp — but not the `ConfigJSON` extension payload, which the
publisher drops when building the wire event. -/
theorem event_fields_amended (now : ℤ) (s : InstanceSpec) (c : List ℕ) :
    (buildEvent now s).eventType = "INSTANCE_CREATED" ∧
      (buildEvent now s).instanceId = s.instanceID ∧
      (buildEvent now s).userId = s.userID ∧
      (buildEvent now s).name = s.name ∧
      (buildEvent now s).cpus = s.cpu ∧
      (buildEvent now s).memoryMb = s.memory ∧
      (buildEvent now s).gpu = s.gpu ∧
      (buildEvent now s).image = s.image ∧
      (buildEvent now s).timestamp = now ∧
      buildEvent now { s with configJSON := c } = buildEvent now s :=
  ⟨rfl, rfl, rfl, rfl, rfl, rfl, rfl, rfl, rfl, rfl⟩

/-! ## C9 -/

/-- C9 (confirmed): whenever any construction step fails (missing config,
dial, channel, exchange declaration, queue declaration or binding), the
publisher is the degraded no-op implementation, and the no-op publisher
returns nil (delivering nothing) on every publish call, for every event. -/
theorem noop_publisher_always_nil (cfgPresent dialOk chanOk exchangeOk queueOk
    bindOk : Bool)
    (h : cfgPresent = false ∨ dialOk = false ∨ chanOk = false ∨
      exchangeOk = false ∨ queueOk = false ∨ bindOk = false) :
    NewMQPublisher cfgPresent dialOk chanOk exchangeOk queueOk bindOk = .noop ∧
      ∀ (sendOk : Bool) (now : ℤ) (s : InstanceSpec),
        publish .noop sendOk now s = (none, []) := by
  refine ⟨?_, fun _ _ _ => rfl⟩
  unfold NewMQPublisher
  rcases h with h | h | h | h | h | h <;> subst h <;> simp

/-- Witness for C9: a publisher built with no broker config is the no-op one
and publish on it returns nil. -/
theorem noop_publisher_always_nil_witness :
    NewMQPublisher false true true true true true = .noop ∧
      publish .noop false 0 ⟨1, "u", "n", 2, 4096, 0, "img", []⟩ = (none, []) :=
  ⟨(noop_publisher_always_nil false true true true true true (Or.inl rfl)).1,
    (noop_publisher_always_nil false true true true true true (Or.inl rfl)).2
      false 0 _⟩

/-! ## C2 -/

/-- C2 (counterexample): an entry with a missing `uid` field is skipped
without invoking the committer — but, contrary to the claim, it is *not*
acknowledged (`acked = false`): the consume loop `continue`s before the
`XAck` call, so the entry stays pending. -/
theorem consume_missing_uid_counterexample :
    consumeOne [] .noop true ⟨1, 2, 3⟩ 0 1001 [] ⟨"1-1", none⟩ =
      ⟨false, false, none, [], []⟩ := by
  decide

/-- C2 (amended): for every entry whose `uid` field is missing or empty, both
the consume loop and the reclaim loop log and skip the entry without invoking
the purchase committer and *without* acknowledging it, so the entry remains
pending in the consumer group forever (the reclaim sweep re-claims it and
skips it again). -/
theorem consume_missing_uid_skips_without_ack (catalog : List Product)
    (pub : Publisher) (sendOk : Bool) (m : Mints) (now pid : ℤ)
    (db : List Order) (msg : StreamMsg)
    (h : extractUid msg.uid = "" ∨ extractUid msg.uid = "<nil>") :
    consumeOne catalog pub sendOk m now pid db msg =
        ⟨false, false, none, db, []⟩ ∧
      reclaimOne catalog pub sendOk m now pid db msg =
        ⟨false, false, none, db, []⟩ := by
  constructor <;> · simp only [consumeOne, reclaimOne]; rw [if_pos h]

/-- Witness for the amended C2 theorem, at an entry with an empty `uid`. -/
theorem consume_missing_uid_skips_without_ack_witness :
    consumeOne [prodA] .real true ⟨11, 100, 200⟩ 0 1001 [] ⟨"1-0", some ""⟩ =
        ⟨false, false, none, [], []⟩ ∧
      reclaimOne [prodA] .real true ⟨11, 100, 200⟩ 0 1001 [] ⟨"1-0", some ""⟩ =
        ⟨false, false, none, [], []⟩ :=
  consume_missing_uid_skips_without_ack [prodA] .real true ⟨11, 100, 200⟩ 0
    1001 [] ⟨"1-0", some ""⟩ (Or.inl rfl)

/-! ## C5 -/

/-- C5 (confirmed): when the downstream publish step fails, `CreateOrder`
returns the publish error to the caller, while the order row inserted in the
persist step remains in the store (it is not rolled back), and no event is
delivered. -/
theorem publish_failure_keeps_order_row (catalog : List Product) (m : Mints)
    (now : ℤ) (db : List Order) (pid : ℤ) (uid : String) (reqID : ℤ)
    (p : Product) (sp : ProductSpec)
    (hfind : getProductByID catalog pid = some p)
    (hstat : p.status = "ENABLED")
    (hspec : p.spec = some sp)
    (hreq : reqID ≠ 0)
    (hpk : (db.any fun r => r.id == m.orderMint) = false)
    (hkey : (db.any fun r => r.productID == pid && r.reqID == reqID) = false) :
    CreateOrder catalog .real false m now db pid uid reqID =
      ⟨0, 0, some .publishSendFailed,
        db ++ [⟨m.orderMint, uid, pid, reqID, p.price, m.instMint, "PAID",
          now, some now, none⟩],
        []⟩ := by
  simp only [CreateOrder, hfind, hstat, hspec, hreq, repoCreate, publish,
    if_neg hreq, hpk, hkey, ne_eq, ite_false, ite_true, Bool.false_eq_true,
    if_false, not_true_eq_false]

/-- Witness for C5: concrete publish-failure commit against product 1001. -/
theorem publish_failure_keeps_order_row_witness :
    CreateOrder [prodA] .real false ⟨11, 100, 200⟩ 0 [] 1001 "user-a" 5 =
      ⟨0, 0, some .publishSendFailed,
        [⟨100, "user-a", 1001, 5, 9900, 200, "PAID", 0, some 0, none⟩], []⟩ :=
  publish_failure_keeps_order_row [prodA] ⟨11, 100, 200⟩ 0 [] 1001 "user-a" 5
    prodA specA (by decide) rfl rfl (by decide) rfl rfl

/-! ## C6 -/

/-- C6 (counterexample): `UpdateStatus` applies the requested status
unconditionally — a single `UpdateStatus(orderID, "PAID")` call takes a
COMPLETED order straight back to PAID, refuting the claim that no sequence of
`UpdateStatus` calls can regress an order. -/
theorem updateStatus_regression_counterexample :
    (UpdateStatus [⟨1, "u", 10, 5, 99, 2, "COMPLETED", 0, some 0, some 0⟩]
        1 "PAID" 7).map Order.status = ["PAID"] := by
  decide

/-- C6 (amended): `UpdateStatus` sets exactly the requested status on the row
with the matching order id (also stamping `paid_at` for PAID and
`completed_at` for COMPLETED) and leaves all other rows unchanged; it checks
no precondition on the current status, so monotonicity of the
PAID → COMPLETED/CANCELLED lifecycle is not enforced by the store and
regressions are possible. -/
theorem updateStatus_unconditional_amended (db : List Order) (orderID : ℤ)
    (st : String) (now : ℤ) :
    (∀ r ∈ UpdateStatus db orderID st now, r.id = orderID → r.status = st) ∧
      (∀ r ∈ UpdateStatus db orderID st now, r.id ≠ orderID → r ∈ db) := by
  constructor
  · intro r hr hid
    simp only [UpdateStatus, List.mem_map] at hr
    obtain ⟨r0, hr0, rfl⟩ := hr
    by_cases h : (r0.id == orderID) = true
    · simp [h]
    · rw [if_neg (by simpa using h)] at hid ⊢
      exact absurd hid (by simpa using h)
  · intro r hr hid
    simp only [UpdateStatus, List.mem_map] at hr
    obtain ⟨r0, hr0, rfl⟩ := hr
    by_cases h : (r0.id == orderID) = true
    · exact absurd (by simpa using h) (by simpa [h] using hid)
    · rw [if_neg (by simpa using h)]
      exact hr0

/-- Witness for the amended C6 theorem: the updated row of the counterexample
store carries exactly the requested (regressed) status. -/
theorem updateStatus_unconditional_amended_witness :
    (⟨1, "u", 10, 5, 99, 2, "PAID", 0, some 7, some 0⟩ : Order).status =
      "PAID" :=
  (updateStatus_unconditional_amended
      [⟨1, "u", 10, 5, 99, 2, "COMPLETED", 0, some 0, some 0⟩] 1 "PAID" 7).1
    ⟨1, "u", 10, 5, 99, 2, "PAID", 0, some 7, some 0⟩ (by decide) (by decide)

/-! ## C7 -/

/-- C7 (counterexample): committing against the DISABLED product 2002 through
`InstanceUsecase.CreateInstance` does *not* return `ErrProductDisabled`: the
function never checks the product status, so it creates the order row and
publishes the event as if the product were sellable. -/
theorem createInstance_disabled_product_counterexample :
    CreateInstance [prodB] .real true ⟨11, 100, 200⟩ 0 [] 2002 "u" 5 =
        (none, [⟨100, "u", 2002, 5, 5000, 200, "PAID", 0, some 0, none⟩],
          [⟨"INSTANCE_CREATED", 200, 0, "u", "gpu", 2, 4096, 0,
            "ubuntu:22.04"⟩]) ∧
      prodB.status = "DISABLED" := by
  decide

/-- C7 (amended): on the `OrderUsecase.CreateOrder` path a product whose
status is not ENABLED yields `ErrProductDisabled` with no order row and no
event; but `InstanceUsecase.CreateInstance` performs no status check at all,
so on that path the same disabled product is committed normally — a row is
created and the event is published. -/
theorem disabled_product_check_amended (catalog : List Product) (m : Mints)
    (now : ℤ) (db : List Order) (pid : ℤ) (uid : String) (reqID : ℤ)
    (p : Product) (sp : ProductSpec)
    (hfind : getProductByID catalog pid = some p)
    (hdis : p.status ≠ "ENABLED")
    (hspec : p.spec = some sp)
    (hreq : reqID ≠ 0)
    (hpk : (db.any fun r => r.id == m.orderMint) = false)
    (hkey : (db.any fun r => r.productID == pid && r.reqID == reqID) = false) :
    CreateOrder catalog .real true m now db pid uid reqID =
        ⟨0, 0, some .productDisabled, db, []⟩ ∧
      CreateInstance catalog .real true m now db pid uid reqID =
        (none,
          db ++ [⟨m.orderMint, uid, pid, reqID, p.price, m.instMint, "PAID",
            now, some now, none⟩],
          [buildEvent now ⟨m.instMint, uid, p.name, sp.cpu, sp.memory, sp.gpu,
            sp.image, sp.configJSON⟩]) := by
  constructor
  · simp only [CreateOrder, hfind]
    rw [if_pos hdis]
  · simp only [CreateInstance, hfind, hspec, hreq, repoCreate, publish,
      if_neg hreq, hpk, hkey]
    simp [hpk, hkey]

/-- Witness for the amended C7 theorem at the disabled product 2002. -/
theorem disabled_product_check_amended_witness :
    CreateOrder [prodB] .real true ⟨11, 100, 200⟩ 0 [] 2002 "u" 5 =
        ⟨0, 0, some .productDisabled, [], []⟩ ∧
      CreateInstance [prodB] .real true ⟨11, 100, 200⟩ 0 [] 2002 "u" 5 =
        (none, [⟨100, "u", 2002, 5, 5000, 200, "PAID", 0, some 0, none⟩],
          [buildEvent 0 ⟨200, "u", "gpu", 2, 4096, 0, "ubuntu:22.04", []⟩]) :=
  disabled_product_check_amended [prodB] ⟨11, 100, 200⟩ 0 [] 2002 "u" 5 prodB
    specA (by decide) (by decide) rfl (by decide) rfl rfl

/-- A list none of whose elements satisfy `f` filters to the empty list. -/
lemma filter_eq_nil_of_any_eq_false {α} (l : List α) (f : α → Bool)
    (h : l.any f = false) : l.filter f = [] := by
  induction l with
  | nil => rfl
  | cons a t ih =>
    simp only [List.any_cons, Bool.or_eq_false_iff] at h
    simp [List.filter_cons, h.1, ih h.2]

/-- If no row of `db` has product id `pid`, then no row satisfies any
conjunctive key predicate starting with `r.productID == pid`. -/
lemma any_fst_false_imp {db : List Order} {pid : ℤ}
    (h : (db.any fun r => r.productID == pid) = false) (g : Order → Bool) :
    (db.any fun r => r.productID == pid && g r) = false := by
  induction db with
  | nil => rfl
  | cons a t ih =>
    simp only [List.any_cons, Bool.or_eq_false_iff] at h ⊢
    exact ⟨by rw [h.1]; rfl, ih h.2⟩

/-! ## C1 -/

/-- C1 (counterexample): committing the same (productID 1001, userID
"user-a", requestSequence 5) twice does *not* yield the same identifier pair:
the first call returns (100, 200) and succeeds; the second call hits the
uniqueness violation on (product_id, req_id) and returns (0, 0) with the
duplicate-key error — `CreateOrder` performs no read-back keyed by
(productID, requestSequence). -/
theorem createOrder_second_call_error_counterexample :
    CreateOrder [prodA] .real true ⟨11, 100, 200⟩ 0 [] 1001 "user-a" 5 =
        ⟨100, 200, none,
          [⟨100, "user-a", 1001, 5, 9900, 200, "PAID", 0, some 0, none⟩],
          [⟨"INSTANCE_CREATED", 200, 0, "user-a", "basic", 2, 4096, 0,
            "ubuntu:22.04"⟩]⟩ ∧
      CreateOrder [prodA] .real true ⟨12, 101, 201⟩ 1
          [⟨100, "user-a", 1001, 5, 9900, 200, "PAID", 0, some 0, none⟩]
          1001 "user-a" 5 =
        ⟨0, 0, some (.uniqueViolation "uq_orders_product_req"),
          [⟨100, "user-a", 1001, 5, 9900, 200, "PAID", 0, some 0, none⟩],
          []⟩ := by
  decide

/-- C1 (amended): calling `CreateOrder` twice with the same valid
(productID, userID, requestSequence ≠ 0) leaves exactly one order row for
that key, but the second call returns the store's uniqueness-violation error
with zero identifiers instead of the previously-committed pair — there is no
read-back keyed by (productID, requestSequence); it is the seckill service
layer (`HandleSeckillOrder`) that maps the violation to a bare success (nil,
no identifiers) so the stream entry gets acknowledged. -/
theorem createOrder_idempotency_amended (catalog : List Product)
    (m1 m2 : Mints) (now1 now2 : ℤ) (db : List Order) (pid : ℤ)
    (uid sid : String) (reqID : ℤ) (p : Product) (sp : ProductSpec)
    (hfind : getProductByID catalog pid = some p)
    (hstat : p.status = "ENABLED")
    (hspec : p.spec = some sp)
    (hreq : reqID ≠ 0)
    (hsid : hashStreamID sid = reqID)
    (hpk1 : (db.any fun r => r.id == m1.orderMint) = false)
    (hkey1 : (db.any fun r => r.productID == pid && r.reqID == reqID) = false)
    (hpk2 : (db.any fun r => r.id == m2.orderMint) = false)
    (hm : m2.orderMint ≠ m1.orderMint) :
    CreateOrder catalog .real true m1 now1 db pid uid reqID =
        ⟨m1.orderMint, m1.instMint, none,
          db ++ [⟨m1.orderMint, uid, pid, reqID, p.price, m1.instMint, "PAID",
            now1, some now1, none⟩],
          [buildEvent now1 ⟨m1.instMint, uid, p.name, sp.cpu, sp.memory,
            sp.gpu, sp.image, sp.configJSON⟩]⟩ ∧
      CreateOrder catalog .real true m2 now2
          (db ++ [⟨m1.orderMint, uid, pid, reqID, p.price, m1.instMint,
            "PAID", now1, some now1, none⟩]) pid uid reqID =
        ⟨0, 0, some (.uniqueViolation "uq_orders_product_req"),
          db ++ [⟨m1.orderMint, uid, pid, reqID, p.price, m1.instMint, "PAID",
            now1, some now1, none⟩],
          []⟩ ∧
      ((db ++ [(⟨m1.orderMint, uid, pid, reqID, p.price, m1.instMint, "PAID",
          now1, some now1, none⟩ : Order)]).filter
        fun r => r.productID == pid && r.reqID == reqID).length = 1 ∧
      HandleSeckillOrder catalog .real true m2 now2
          (db ++ [⟨m1.orderMint, uid, pid, reqID, p.price, m1.instMint,
            "PAID", now1, some now1, none⟩]) pid sid uid =
        (none,
          db ++ [⟨m1.orderMint, uid, pid, reqID, p.price, m1.instMint, "PAID",
            now1, some now1, none⟩],
          []) := by
  have h1 : CreateOrder catalog .real true m1 now1 db pid uid reqID =
      ⟨m1.orderMint, m1.instMint, none,
        db ++ [⟨m1.orderMint, uid, pid, reqID, p.price, m1.instMint, "PAID",
          now1, some now1, none⟩],
        [buildEvent now1 ⟨m1.instMint, uid, p.name, sp.cpu, sp.memory, sp.gpu,
          sp.image, sp.configJSON⟩]⟩ := by
    simp only [CreateOrder, hfind, hstat, hspec, hreq, repoCreate, publish,
      if_neg hreq, hpk1, hkey1, ne_eq, ite_true, ite_false,
      Bool.false_eq_true, if_false, not_true_eq_false]
  have h2 : CreateOrder catalog .real true m2 now2
      (db ++ [⟨m1.orderMint, uid, pid, reqID, p.price, m1.instMint, "PAID",
        now1, some now1, none⟩]) pid uid reqID =
      ⟨0, 0, some (.uniqueViolation "uq_orders_product_req"),
        db ++ [⟨m1.orderMint, uid, pid, reqID, p.price, m1.instMint, "PAID",
          now1, some now1, none⟩],
        []⟩ := by
    simp only [CreateOrder, hfind, hstat, hspec, hreq, repoCreate,
      if_neg hreq, List.any_append, List.any_cons, List.any_nil, hpk2, hkey1,
      Bool.false_or, Bool.or_false, Bool.and_eq_true, beq_iff_eq,
      eq_self_iff_true, and_self, if_true, true_and, ne_eq,
      not_true_eq_false, ite_false, Bool.false_eq_true, if_false]
    rw [if_neg (Ne.symm hm)]
  refine ⟨h1, h2, ?_, ?_⟩
  · rw [List.filter_append, filter_eq_nil_of_any_eq_false db _ hkey1]
    simp
  · simp only [HandleSeckillOrder, hsid, h2, isUniqueViolationError, if_true,
      ite_true]

/-- Witness for the amended C1 theorem: stream entry "1-1" hashes to request
sequence 48533; the duplicate delivery leaves one row, errors inside
`CreateOrder`, and is folded to success by the service layer. -/
theorem createOrder_idempotency_amended_witness :
    CreateOrder [prodA] .real true ⟨11, 100, 200⟩ 0 [] 1001 "user-a" 48533 =
        ⟨100, 200, none,
          [⟨100, "user-a", 1001, 48533, 9900, 200, "PAID", 0, some 0, none⟩],
          [buildEvent 0 ⟨200, "user-a", "basic", 2, 4096, 0, "ubuntu:22.04",
            []⟩]⟩ ∧
      CreateOrder [prodA] .real true ⟨12, 101, 201⟩ 1
          [⟨100, "user-a", 1001, 48533, 9900, 200, "PAID", 0, some 0, none⟩]
          1001 "user-a" 48533 =
        ⟨0, 0, some (.uniqueViolation "uq_orders_product_req"),
          [⟨100, "user-a", 1001, 48533, 9900, 200, "PAID", 0, some 0, none⟩],
          []⟩ ∧
      (([⟨100, "user-a", 1001, 48533, 9900, 200, "PAID", 0, some 0,
          none⟩] : List Order).filter
        fun r => r.productID == 1001 && r.reqID == 48533).length = 1 ∧
      HandleSeckillOrder [prodA] .real true ⟨12, 101, 201⟩ 1
          [⟨100, "user-a", 1001, 48533, 9900, 200, "PAID", 0, some 0, none⟩]
          1001 "1-1" "user-a" =
        (none,
          [⟨100, "user-a", 1001, 48533, 9900, 200, "PAID", 0, some 0, none⟩],
          []) :=
  createOrder_idempotency_amended [prodA] ⟨11, 100, 200⟩ ⟨12, 101, 201⟩ 0 1
    [] 1001 "user-a" "1-1" 48533 prodA specA (by decide) rfl rfl (by decide)
    (by decide) rfl rfl rfl (by decide)

/-! ## C10 -/

/-- C10 (confirmed): `hashStreamID` is a pure function of the entry token and
maps the empty token to 0; for any entry token whose derived sequence is 0,
`CreateOrder` silently takes the regular-purchase branch and mints a fresh
generator value as the sequence, so two deliveries of such an entry (which
mint distinct values) both succeed and produce two distinct order rows
instead of one idempotent commit. -/
theorem zero_sequence_duplicate_rows (catalog : List Product) (m1 m2 : Mints)
    (now1 now2 : ℤ) (db : List Order) (pid : ℤ) (sid uid : String)
    (p : Product) (sp : ProductSpec)
    (hsid : hashStreamID sid = 0)
    (hfind : getProductByID catalog pid = some p)
    (hstat : p.status = "ENABLED")
    (hspec : p.spec = some sp)
    (hm : m1.reqMint ≠ m2.reqMint)
    (hpid : (db.any fun r => r.productID == pid) = false)
    (hpk1 : (db.any fun r => r.id == m1.orderMint) = false)
    (hpk2 : (db.any fun r => r.id == m2.orderMint) = false)
    (hm2 : m2.orderMint ≠ m1.orderMint) :
    HandleSeckillOrder catalog .real true m1 now1 db pid sid uid =
        (none,
          db ++ [⟨m1.orderMint, uid, pid, m1.reqMint, p.price, m1.instMint,
            "PAID", now1, some now1, none⟩],
          [buildEvent now1 ⟨m1.instMint, uid, p.name, sp.cpu, sp.memory,
            sp.gpu, sp.image, sp.configJSON⟩]) ∧
      HandleSeckillOrder catalog .real true m2 now2
          (db ++ [⟨m1.orderMint, uid, pid, m1.reqMint, p.price, m1.instMint,
            "PAID", now1, some now1, none⟩]) pid sid uid =
        (none,
          db ++ [⟨m1.orderMint, uid, pid, m1.reqMint, p.price, m1.instMint,
              "PAID", now1, some now1, none⟩,
            ⟨m2.orderMint, uid, pid, m2.reqMint, p.price, m2.instMint, "PAID",
              now2, some now2, none⟩],
          [buildEvent now2 ⟨m2.instMint, uid, p.name, sp.cpu, sp.memory,
            sp.gpu, sp.image, sp.configJSON⟩]) ∧
      ((db ++ [(⟨m1.orderMint, uid, pid, m1.reqMint, p.price, m1.instMint,
            "PAID", now1, some now1, none⟩ : Order),
          ⟨m2.orderMint, uid, pid, m2.reqMint, p.price, m2.instMint, "PAID",
            now2, some now2, none⟩]).filter
        fun r => r.productID == pid).length = 2 := by
  have hkey1 := any_fst_false_imp hpid (fun r => r.reqID == m1.reqMint)
  have hkey2 := any_fst_false_imp hpid (fun r => r.reqID == m2.reqMint)
  have h1 : CreateOrder catalog .real true m1 now1 db pid uid 0 =
      ⟨m1.orderMint, m1.instMint, none,
        db ++ [⟨m1.orderMint, uid, pid, m1.reqMint, p.price, m1.instMint,
          "PAID", now1, some now1, none⟩],
        [buildEvent now1 ⟨m1.instMint, uid, p.name, sp.cpu, sp.memory, sp.gpu,
          sp.image, sp.configJSON⟩]⟩ := by
    simp only [CreateOrder, hfind, hstat, hspec, repoCreate, publish, hpk1,
      hkey1, eq_self_iff_true, if_true, ne_eq, ite_true, ite_false,
      Bool.false_eq_true, if_false, not_true_eq_false]
  have h2 : CreateOrder catalog .real true m2 now2
      (db ++ [⟨m1.orderMint, uid, pid, m1.reqMint, p.price, m1.instMint,
        "PAID", now1, some now1, none⟩]) pid uid 0 =
      ⟨m2.orderMint, m2.instMint, none,
        db ++ [⟨m1.orderMint, uid, pid, m1.reqMint, p.price, m1.instMint,
            "PAID", now1, some now1, none⟩,
          ⟨m2.orderMint, uid, pid, m2.reqMint, p.price, m2.instMint, "PAID",
            now2, some now2, none⟩],
        [buildEvent now2 ⟨m2.instMint, uid, p.name, sp.cpu, sp.memory, sp.gpu,
          sp.image, sp.configJSON⟩]⟩ := by
    simp only [CreateOrder, hfind, hstat, hspec, repoCreate, publish,
      List.any_append, List.any_cons, List.any_nil, hpk2, hkey2,
      Bool.false_or, Bool.or_false, Bool.and_eq_true, beq_iff_eq,
      eq_self_iff_true, and_self, if_true, true_and, hm, ne_eq,
      not_true_eq_false, ite_false, Bool.false_eq_true, if_false,
      List.append_assoc, List.singleton_append, List.cons_append,
      List.nil_append]
    rw [if_neg (Ne.symm hm2)]
  refine ⟨?_, ?_, ?_⟩
  · simp only [HandleSeckillOrder, hsid, h1]
  · simp only [HandleSeckillOrder, hsid, h2]
  · rw [List.filter_append, filter_eq_nil_of_any_eq_false db _ hpid]
    simp

/-- Witness for C10: the empty entry token hashes to 0; two deliveries with
distinct minted sequences 11 and 12 create two distinct rows. -/
theorem zero_sequence_duplicate_rows_witness :
    HandleSeckillOrder [prodA] .real true ⟨11, 100, 200⟩ 0 [] 1001 ""
        "user-a" =
      (none, [⟨100, "user-a", 1001, 11, 9900, 200, "PAID", 0, some 0, none⟩],
        [buildEvent 0 ⟨200, "user-a", "basic", 2, 4096, 0, "ubuntu:22.04",
          []⟩]) ∧
      HandleSeckillOrder [prodA] .real true ⟨12, 101, 201⟩ 1
          [⟨100, "user-a", 1001, 11, 9900, 200, "PAID", 0, some 0, none⟩]
          1001 "" "user-a" =
        (none,
          [⟨100, "user-a", 1001, 11, 9900, 200, "PAID", 0, some 0, none⟩,
            ⟨101, "user-a", 1001, 12, 9900, 201, "PAID", 1, some 1, none⟩],
          [buildEvent 1 ⟨201, "user-a", "basic", 2, 4096, 0, "ubuntu:22.04",
            []⟩]) ∧
      (([⟨100, "user-a", 1001, 11, 9900, 200, "PAID", 0, some 0, none⟩,
          ⟨101, "user-a", 1001, 12, 9900, 201, "PAID", 1, some 1,
            none⟩] : List Order).filter
        fun r => r.productID == 1001).length = 2 :=
  zero_sequence_duplicate_rows [prodA] ⟨11, 100, 200⟩ ⟨12, 101, 201⟩ 0 1 []
    1001 "" "user-a" prodA specA (by decide) (by decide) rfl rfl (by decide)
    rfl rfl rfl (by decide)

end RunAllProduct
